import Mathlib

/-!
# Verification of the web-model-viewer core (`src/lib/threejs.ts`)

A shallow embedding of the scene-composition and asset-normalization
pipeline of the viewer.  JavaScript numbers are modelled as exact
rationals extended with the two infinities and NaN (`JsNum`), so that
the IEEE behaviour of division by zero and of arithmetic on non-finite
values is captured while rounding is idealised away (the spec's
"within floating-point tolerance" claims become exact statements).

The embedded functions keep the names of the source functions:
`centerAndScaleModel`, `initCamera`, `setSceneEnvironment`,
`setupEnvironment`, `loadGLTFModel`, `enableModelShadows`,
`getUniqueModelMaterials`.
-/

/-- A JavaScript number: an exact rational, +Infinity, -Infinity or NaN. -/
inductive JsNum where
  | fin (q : ℚ)
  | posInf
  | negInf
  | nan
deriving DecidableEq, Repr

namespace JsNum

/-- Unary minus on JS numbers. -/
def neg : JsNum → JsNum
  | fin q => fin (-q)
  | posInf => negInf
  | negInf => posInf
  | nan => nan

/-- JS addition (IEEE semantics on the non-finite values). -/
def add : JsNum → JsNum → JsNum
  | nan, _ => nan
  | _, nan => nan
  | fin a, fin b => fin (a + b)
  | posInf, negInf => nan
  | negInf, posInf => nan
  | posInf, _ => posInf
  | _, posInf => posInf
  | negInf, _ => negInf
  | _, negInf => negInf

/-- JS subtraction: `a - b` behaves as `a + (-b)`. -/
def sub (a b : JsNum) : JsNum := add a (neg b)

/-- JS multiplication (IEEE: `0 * Infinity = NaN`). -/
def mul : JsNum → JsNum → JsNum
  | nan, _ => nan
  | _, nan => nan
  | fin a, fin b => fin (a * b)
  | fin a, posInf => if a = 0 then nan else if 0 < a then posInf else negInf
  | fin a, negInf => if a = 0 then nan else if 0 < a then negInf else posInf
  | posInf, fin b => if b = 0 then nan else if 0 < b then posInf else negInf
  | negInf, fin b => if b = 0 then nan else if 0 < b then negInf else posInf
  | posInf, posInf => posInf
  | posInf, negInf => negInf
  | negInf, posInf => negInf
  | negInf, negInf => posInf

/-- JS division (IEEE: a nonzero finite number divided by zero gives a
signed infinity, `0 / 0` gives NaN; the rational `0` stands for `+0`). -/
def div : JsNum → JsNum → JsNum
  | nan, _ => nan
  | _, nan => nan
  | fin a, fin b =>
      if b = 0 then (if a = 0 then nan else if 0 < a then posInf else negInf)
      else fin (a / b)
  | fin _, posInf => fin 0
  | fin _, negInf => fin 0
  | posInf, fin b => if b < 0 then negInf else posInf
  | negInf, fin b => if b < 0 then posInf else negInf
  | posInf, posInf => nan
  | posInf, negInf => nan
  | negInf, posInf => nan
  | negInf, negInf => nan

/-- The strict `<` comparison of JS (`NaN` compares false with everything). -/
def lt : JsNum → JsNum → Bool
  | nan, _ => false
  | _, nan => false
  | fin a, fin b => decide (a < b)
  | fin _, posInf => true
  | negInf, fin _ => true
  | negInf, posInf => true
  | _, _ => false

/-- `Math.min` on two JS numbers (NaN-propagating). -/
def jsMin : JsNum → JsNum → JsNum
  | nan, _ => nan
  | _, nan => nan
  | fin a, fin b => fin (min a b)
  | fin a, posInf => fin a
  | posInf, fin b => fin b
  | fin _, negInf => negInf
  | negInf, fin _ => negInf
  | posInf, posInf => posInf
  | posInf, negInf => negInf
  | negInf, _ => negInf

/-- `Math.max` on two JS numbers (NaN-propagating). -/
def jsMax : JsNum → JsNum → JsNum
  | nan, _ => nan
  | _, nan => nan
  | fin a, fin b => fin (max a b)
  | fin _, posInf => posInf
  | posInf, fin _ => posInf
  | fin a, negInf => fin a
  | negInf, fin b => fin b
  | posInf, posInf => posInf
  | posInf, negInf => posInf
  | negInf, posInf => posInf
  | negInf, negInf => negInf

/-- Finiteness test: `true` exactly on the `fin` values. -/
def isFin : JsNum → Bool
  | fin _ => true
  | _ => false


end JsNum

/-- A 3-component vector of JS numbers (`THREE.Vector3`). -/
structure Vec3 where
  x : JsNum
  y : JsNum
  z : JsNum
deriving DecidableEq, Repr

/-- An axis-aligned box (`THREE.Box3`), given by its min and max corners. -/
structure Box3 where
  min : Vec3
  max : Vec3
deriving DecidableEq, Repr

namespace Box3

/-- `Box3.isEmpty`: the box is the empty sentinel when some max
coordinate is strictly below the matching min coordinate. -/
def isEmpty (b : Box3) : Bool :=
  JsNum.lt b.max.x b.min.x || JsNum.lt b.max.y b.min.y || JsNum.lt b.max.z b.min.z

/-- `Box3.getSize`: `(0,0,0)` for an empty box, otherwise `max - min`. -/
def getSize (b : Box3) : Vec3 :=
  if b.isEmpty then ⟨.fin 0, .fin 0, .fin 0⟩
  else ⟨JsNum.sub b.max.x b.min.x, JsNum.sub b.max.y b.min.y, JsNum.sub b.max.z b.min.z⟩

/-- `Box3.getCenter`: `(0,0,0)` for an empty box, otherwise `(min + max) * 0.5`. -/
def getCenter (b : Box3) : Vec3 :=
  if b.isEmpty then ⟨.fin 0, .fin 0, .fin 0⟩
  else ⟨JsNum.mul (JsNum.add b.min.x b.max.x) (.fin (1/2)),
        JsNum.mul (JsNum.add b.min.y b.max.y) (.fin (1/2)),
        JsNum.mul (JsNum.add b.min.z b.max.z) (.fin (1/2))⟩

end Box3

/-- The state of a model root group (`THREE.Group`) as far as the Geometry
Normalizer touches it: the combined bounding box of its mesh content in the
root's local frame (unchanged by the normalizer), the root's scale vector and
the root's position vector. -/
structure Model where
  /-- Union of the descendants' geometry boxes expressed in the root's local
  frame; the empty sentinel (`min = +inf`, `max = -inf`) for a model with no
  mesh content. -/
  contentBox : Box3
  scale : Vec3
  position : Vec3
deriving DecidableEq, Repr

/-- One axis of transforming a box corner pair by scale `s` and offset `p`:
the lower corner of the image interval. -/
def axisLo (s a b p : JsNum) : JsNum :=
  JsNum.add (JsNum.jsMin (JsNum.mul s a) (JsNum.mul s b)) p

/-- One axis of transforming a box corner pair by scale `s` and offset `p`:
the upper corner of the image interval. -/
def axisHi (s a b p : JsNum) : JsNum :=
  JsNum.add (JsNum.jsMax (JsNum.mul s a) (JsNum.mul s b)) p

/-- `new Box3().setFromObject(model)`: the world-space bounding box of the
model — the content box pushed through the root's scale-and-translate
transform (corner-wise, as `Box3.applyMatrix4` does), or the untouched empty
sentinel when the model has no mesh content (`applyMatrix4` is never applied
to an empty geometry box). -/
def worldBox (m : Model) : Box3 :=
  if m.contentBox.isEmpty then m.contentBox
  else
    { min := ⟨axisLo m.scale.x m.contentBox.min.x m.contentBox.max.x m.position.x,
              axisLo m.scale.y m.contentBox.min.y m.contentBox.max.y m.position.y,
              axisLo m.scale.z m.contentBox.min.z m.contentBox.max.z m.position.z⟩,
      max := ⟨axisHi m.scale.x m.contentBox.min.x m.contentBox.max.x m.position.x,
              axisHi m.scale.y m.contentBox.min.y m.contentBox.max.y m.position.y,
              axisHi m.scale.z m.contentBox.min.z m.contentBox.max.z m.position.z⟩ }

/-- `centerAndScaleModel`: measures the model's current world bounding box,
sets the root's scale to `3 / maxDim` uniformly (`scale.setScalar`) and sets
its position to `(-center.x * scale, -box.min.y * scale, -center.z * scale)`. -/
def centerAndScaleModel (model : Model) : Model :=
  let box := worldBox model
  let center := box.getCenter
  let size := box.getSize
  let maxDim := JsNum.jsMax size.x (JsNum.jsMax size.y size.z)
  let scale := JsNum.div (.fin 3) maxDim
  { model with
    scale := ⟨scale, scale, scale⟩,
    position := ⟨JsNum.mul (JsNum.neg center.x) scale,
                 JsNum.mul (JsNum.neg box.min.y) scale,
                 JsNum.mul (JsNum.neg center.z) scale⟩ }

/-- The `maxDim` computed by `centerAndScaleModel` from a box:
`Math.max(size.x, size.y, size.z)`. -/
def boxMaxDim (b : Box3) : JsNum :=
  JsNum.jsMax b.getSize.x (JsNum.jsMax b.getSize.y b.getSize.z)

/-- `THREE.PerspectiveCamera` as far as `initCamera` configures it. -/
structure PerspectiveCamera where
  fov : ℚ
  aspect : JsNum
  near : ℚ
  far : ℚ
  posX : ℚ
  posY : ℚ
  posZ : ℚ
deriving DecidableEq, Repr

/-- `initCamera`: builds a perspective camera with fov 75, aspect ratio
`clientWidth / clientHeight` (a JS division, so `+Infinity` or `NaN` on a
zero height), near 0.1, far 1000, positioned at (5, 3, 5). -/
def initCamera (clientWidth clientHeight : ℚ) : PerspectiveCamera :=
  { fov := 75,
    aspect := JsNum.div (.fin clientWidth) (.fin clientHeight),
    near := 1/10,
    far := 1000,
    posX := 5, posY := 3, posZ := 5 }

/-! ## Environment and model loading (`setupEnvironment`, `loadGLTFModel`)

The asynchronous decode is modelled by passing its outcome (`Except`) as an
oracle argument; browser object-URL lifecycle is modelled by counting
`URL.createObjectURL` / `URL.revokeObjectURL` calls in a `UrlState`. -/

/-- The projection mode tag of a texture (`Texture.mapping`). -/
inductive TexMapping where
  | uv
  | equirect
deriving DecidableEq, Repr

/-- A decoded texture: identity plus its mapping tag. -/
structure Texture where
  id : ℕ
  mapping : TexMapping
deriving DecidableEq, Repr

/-- A scene background: unset, a flat color, or a texture. -/
inductive Background where
  | unset
  | color (c : ℕ)
  | tex (t : Texture)
deriving DecidableEq, Repr

/-- The scene fields touched by the Environment Loader. -/
structure SceneState where
  environment : Option Texture
  background : Background
  backgroundBlurriness : ℚ
deriving DecidableEq, Repr

/-- `initScene`: a fresh `THREE.Scene` (no environment, no background). -/
def initScene : SceneState := ⟨none, .unset, 0⟩

/-- Counters of browser object-URL lifecycle calls. -/
structure UrlState where
  created : ℕ
  revoked : ℕ
deriving DecidableEq, Repr

/-- `URL.createObjectURL`: one more temporary local resource handle. -/
def createObjectURL (u : UrlState) : UrlState := { u with created := u.created + 1 }

/-- `URL.revokeObjectURL`: one more handle released. -/
def revokeObjectURL (u : UrlState) : UrlState := { u with revoked := u.revoked + 1 }

/-- The input of `setupEnvironment`: a stable URL string (identified
opaquely) or an in-memory file handle. -/
inductive FileInput where
  | url (s : ℕ)
  | file (f : ℕ)
deriving DecidableEq, Repr

/-- Opaque decode errors. -/
abbrev Err := ℕ

/-- `setSceneEnvironment`: tags the texture as equirectangular-reflection
mapped, installs it as the scene's environment, installs it as the
background when `useSkybox` (flat white `0xffffff` otherwise) and sets the
background blurriness.  Returns the mutated texture and scene. -/
def setSceneEnvironment (scene : SceneState) (texture : Texture) (blurriness : ℚ)
    (useSkybox : Bool) : Texture × SceneState :=
  let t := { texture with mapping := .equirect }
  (t, { environment := some t,
        background := if useSkybox then .tex t else .color 0xffffff,
        backgroundBlurriness := blurriness })

/-- `setupEnvironment`: resolves the input to a URL (creating an object URL
for a `File` input), awaits the HDR decode (`decodeResult` is the oracle for
`rgbeLoader.loadAsync`), on success installs the texture via
`setSceneEnvironment` and returns it, on failure rethrows; in both cases the
`finally` block revokes the object URL exactly when the input was a `File`
(the created URL string is never empty). -/
def setupEnvironment (file : FileInput) (scene : SceneState) (blurriness : ℚ)
    (useSkybox : Bool) (decodeResult : Except Err Texture) (u : UrlState) :
    Except Err Texture × SceneState × UrlState :=
  let u1 := match file with
    | .url _ => u
    | .file _ => createObjectURL u
  let cleanup := fun (v : UrlState) => match file with
    | .url _ => v
    | .file _ => revokeObjectURL v
  match decodeResult with
  | .ok texture =>
      let r := setSceneEnvironment scene texture blurriness useSkybox
      (.ok r.1, r.2, cleanup u1)
  | .error e => (.error e, scene, cleanup u1)

/-- `loadGLTFModel`: creates an object URL for the file, awaits the GLTF
decode (`decodeResult` is the oracle for `loader.loadAsync`), returns the
asset or rethrows, and in both cases the `finally` block revokes the URL. -/
def loadGLTFModel (file : ℕ) (decodeResult : Except Err ℕ) (u : UrlState) :
    Except Err ℕ × UrlState :=
  let u1 := createObjectURL u
  match decodeResult with
  | .ok gltf => (.ok gltf, revokeObjectURL u1)
  | .error e => (.error e, revokeObjectURL u1)

/-- One in-flight `setupEnvironment` call: its input, the outcome its decode
will produce, and its blurriness/skybox arguments. -/
structure EnvLoad where
  input : FileInput
  outcome : Except Err Texture
  blurriness : ℚ
  useSkybox : Bool

/-- Runs the decode continuation of one settled environment load against the
shared scene. -/
def settleEnvLoad (st : SceneState × UrlState) (ld : EnvLoad) : SceneState × UrlState :=
  let r := setupEnvironment ld.input st.1 ld.blurriness ld.useSkybox ld.outcome st.2
  (r.2.1, r.2.2)

/-- Concurrent environment loads on the single-threaded event loop: each
load's post-decode continuation (install + revoke) runs atomically when its
decode settles, so an execution is determined by the settlement order; the
object-URL creations at initiation time do not touch the scene and their
counts commute, so folding the whole calls in settlement order yields the
same final state as the true interleaving. -/
def runEnvLoads (loads : List EnvLoad) (scene : SceneState) (u : UrlState) :
    SceneState × UrlState :=
  loads.foldl settleEnvLoad (scene, u)

/-- The number of object URLs a single load creates for its input. -/
def fileCount : FileInput → ℕ
  | .url _ => 0
  | .file _ => 1

/-! ## The model scene graph (`traverse`, `enableModelShadows`,
`getUniqueModelMaterials`)

Materials are identified by reference identity, modelled as `ℕ`; entries of
a multi-material array live in the dynamic value domain and may be `null`
(`Option ℕ` with `none` for `null`/`undefined`). -/

/-- A mesh node's `material` slot: `null`/`undefined` (falsy, so skipped by
the `child.material` guard), a single material instance, or a material
array whose elements are added unchecked by
`child.material.forEach((mat) => materials.add(mat))`. -/
inductive MatAssign where
  | jsNull
  | single (m : ℕ)
  | multi (ms : List (Option ℕ))
deriving DecidableEq, Repr

mutual
/-- A node of a model's hierarchy: a plain group (`Object3D`) or a renderable
`Mesh` with its material assignment and its two shadow flags; children are
kept in declaration order. -/
inductive Node where
  | group (cs : NodeList)
  | mesh (mat : MatAssign) (castShadow : Bool) (receiveShadow : Bool) (cs : NodeList)
deriving DecidableEq, Repr

/-- A list of sibling nodes in declaration order. -/
inductive NodeList where
  | nil
  | cons (hd : Node) (tl : NodeList)
deriving DecidableEq, Repr
end

mutual
/-- `Object3D.traverse` visiting order: the node itself first, then each
child's subtree in declaration order (depth-first preorder). -/
def preorder : Node → List Node
  | .group cs => .group cs :: preorderList cs
  | .mesh m c r cs => .mesh m c r cs :: preorderList cs

/-- Preorder traversal of a sibling list. -/
def preorderList : NodeList → List Node
  | .nil => []
  | .cons n ns => preorder n ++ preorderList ns
end

mutual
/-- `enableModelShadows`: traverses the hierarchy and sets
`castShadow = receiveShadow = true` on every mesh node. -/
def enableModelShadows : Node → Node
  | .group cs => .group (enableShadowsList cs)
  | .mesh m _ _ cs => .mesh m true true (enableShadowsList cs)

/-- `enableModelShadows` on a sibling list. -/
def enableShadowsList : NodeList → NodeList
  | .nil => .nil
  | .cons n ns => .cons (enableModelShadows n) (enableShadowsList ns)
end

mutual
/-- Whether every mesh node of the hierarchy has both shadow flags set. -/
def allMeshShadows : Node → Bool
  | .group cs => allMeshShadowsList cs
  | .mesh _ c r cs => c && r && allMeshShadowsList cs

/-- `allMeshShadows` over a sibling list. -/
def allMeshShadowsList : NodeList → Bool
  | .nil => true
  | .cons n ns => allMeshShadows n && allMeshShadowsList ns
end

/-- Both shadow flags of a single node (`true` for a non-mesh node). -/
def meshFlagsOn : Node → Bool
  | .group _ => true
  | .mesh _ c r _ => c && r

/-- The material identities one material slot contributes, in `add` order:
nothing for a falsy slot, the single instance, or the array's elements. -/
def matListOf : MatAssign → List (Option ℕ)
  | .jsNull => []
  | .single m => [some m]
  | .multi ms => ms

/-- The material identities one visited node contributes (mesh nodes only). -/
def nodeMats : Node → List (Option ℕ)
  | .group _ => []
  | .mesh mat _ _ _ => matListOf mat

/-- `Set.add` on a JS `Set` kept as its insertion-ordered element list:
appends the element unless it is already present. -/
def insertMat (acc : List (Option ℕ)) (m : Option ℕ) : List (Option ℕ) :=
  if m ∈ acc then acc else acc ++ [m]

mutual
/-- The traversal of `getUniqueModelMaterials`, with the visited tree
returned alongside the accumulated set so that non-mutation of the model is
expressible: the callback only reads `child.material`, so every visited node
is returned unchanged. -/
def collectMatsM : Node → List (Option ℕ) → Node × List (Option ℕ)
  | .group cs, acc =>
      let r := collectMatsListM cs acc
      (.group r.1, r.2)
  | .mesh mat c rv cs, acc =>
      let acc1 := (matListOf mat).foldl insertMat acc
      let r := collectMatsListM cs acc1
      (.mesh mat c rv r.1, r.2)

/-- `collectMatsM` over a sibling list. -/
def collectMatsListM : NodeList → List (Option ℕ) → NodeList × List (Option ℕ)
  | .nil, acc => (.nil, acc)
  | .cons n ns, acc =>
      let r1 := collectMatsM n acc
      let r2 := collectMatsListM ns r1.2
      (.cons r1.1 r2.1, r2.2)
end

/-- `getUniqueModelMaterials`: traverses the model, adds every mesh node's
material(s) to a `Set`, and returns `Array.from(set)` — the insertion-ordered
element list. -/
def getUniqueModelMaterials (root : Node) : List (Option ℕ) :=
  (collectMatsM root []).2

/-- Specification-side de-duplication: keep the first occurrence of each
element, preserving encounter order. -/
def keepFirst {α : Type} [DecidableEq α] : List α → List α
  | [] => []
  | x :: xs => x :: (keepFirst xs).filter (fun y => y ≠ x)
namespace JsNum

@[simp] theorem neg_fin (a : ℚ) : neg (fin a) = fin (-a) := rfl
@[simp] theorem add_fin (a b : ℚ) : add (fin a) (fin b) = fin (a + b) := rfl
@[simp] theorem sub_fin (a b : ℚ) : sub (fin a) (fin b) = fin (a - b) := by
  simp [sub, add, neg, sub_eq_add_neg]
@[simp] theorem mul_fin (a b : ℚ) : mul (fin a) (fin b) = fin (a * b) := rfl
@[simp] theorem min_fin (a b : ℚ) : jsMin (fin a) (fin b) = fin (min a b) := rfl
@[simp] theorem max_fin (a b : ℚ) : jsMax (fin a) (fin b) = fin (max a b) := rfl
@[simp] theorem lt_fin (a b : ℚ) : lt (fin a) (fin b) = decide (a < b) := rfl
@[simp] theorem isFin_fin (a : ℚ) : isFin (fin a) = true := rfl

theorem div_fin (a b : ℚ) (hb : b ≠ 0) : div (fin a) (fin b) = fin (a / b) := by
  simp [div, hb]

end JsNum

/-! ## Helper lemmas for the Geometry Normalizer -/

/-- A box with finite, componentwise ordered corners is not empty. -/
theorem finBox_not_empty (a1 a2 a3 b1 b2 b3 : ℚ)
    (h1 : a1 ≤ b1) (h2 : a2 ≤ b2) (h3 : a3 ≤ b3) :
    (Box3.mk ⟨.fin a1, .fin a2, .fin a3⟩ ⟨.fin b1, .fin b2, .fin b3⟩).isEmpty = false := by
  simp only [Box3.isEmpty, JsNum.lt_fin, Bool.or_eq_false_iff, decide_eq_false_iff_not, not_lt]
  exact ⟨⟨h1, h2⟩, h3⟩

/-- The world box of a model with finite ordered content, a finite nonnegative
uniform scale and a finite position, computed corner-wise. -/
theorem worldBox_finModel (a1 a2 a3 b1 b2 b3 s p1 p2 p3 : ℚ)
    (h1 : a1 ≤ b1) (h2 : a2 ≤ b2) (h3 : a3 ≤ b3) (hs : 0 ≤ s) :
    worldBox ⟨⟨⟨.fin a1, .fin a2, .fin a3⟩, ⟨.fin b1, .fin b2, .fin b3⟩⟩,
              ⟨.fin s, .fin s, .fin s⟩, ⟨.fin p1, .fin p2, .fin p3⟩⟩ =
    ⟨⟨.fin (s*a1+p1), .fin (s*a2+p2), .fin (s*a3+p3)⟩,
     ⟨.fin (s*b1+p1), .fin (s*b2+p2), .fin (s*b3+p3)⟩⟩ := by
  have e1 : min (s*a1) (s*b1) = s*a1 := min_eq_left (mul_le_mul_of_nonneg_left h1 hs)
  have e2 : min (s*a2) (s*b2) = s*a2 := min_eq_left (mul_le_mul_of_nonneg_left h2 hs)
  have e3 : min (s*a3) (s*b3) = s*a3 := min_eq_left (mul_le_mul_of_nonneg_left h3 hs)
  have f1 : max (s*a1) (s*b1) = s*b1 := max_eq_right (mul_le_mul_of_nonneg_left h1 hs)
  have f2 : max (s*a2) (s*b2) = s*b2 := max_eq_right (mul_le_mul_of_nonneg_left h2 hs)
  have f3 : max (s*a3) (s*b3) = s*b3 := max_eq_right (mul_le_mul_of_nonneg_left h3 hs)
  simp [worldBox, finBox_not_empty _ _ _ _ _ _ h1 h2 h3, axisLo, axisHi, e1, e2, e3, f1, f2, f3]

/-- The exact result of running `centerAndScaleModel` on a model whose root
transform is the identity and whose content box is finite, ordered and
non-degenerate. -/
theorem centerAndScale_run (a1 a2 a3 b1 b2 b3 : ℚ)
    (h1 : a1 ≤ b1) (h2 : a2 ≤ b2) (h3 : a3 ≤ b3)
    (hM : 0 < max (b1-a1) (max (b2-a2) (b3-a3))) :
    centerAndScaleModel ⟨⟨⟨.fin a1, .fin a2, .fin a3⟩, ⟨.fin b1, .fin b2, .fin b3⟩⟩,
        ⟨.fin 1, .fin 1, .fin 1⟩, ⟨.fin 0, .fin 0, .fin 0⟩⟩ =
      ⟨⟨⟨.fin a1, .fin a2, .fin a3⟩, ⟨.fin b1, .fin b2, .fin b3⟩⟩,
       ⟨.fin (3 / max (b1-a1) (max (b2-a2) (b3-a3))),
        .fin (3 / max (b1-a1) (max (b2-a2) (b3-a3))),
        .fin (3 / max (b1-a1) (max (b2-a2) (b3-a3)))⟩,
       ⟨.fin (-((a1+b1)*(1/2)) * (3 / max (b1-a1) (max (b2-a2) (b3-a3)))),
        .fin (-a2 * (3 / max (b1-a1) (max (b2-a2) (b3-a3)))),
        .fin (-((a3+b3)*(1/2)) * (3 / max (b1-a1) (max (b2-a2) (b3-a3))))⟩⟩ := by
  have hw0 : worldBox ⟨⟨⟨.fin a1, .fin a2, .fin a3⟩, ⟨.fin b1, .fin b2, .fin b3⟩⟩,
      ⟨.fin 1, .fin 1, .fin 1⟩, ⟨.fin 0, .fin 0, .fin 0⟩⟩ =
      ⟨⟨.fin a1, .fin a2, .fin a3⟩, ⟨.fin b1, .fin b2, .fin b3⟩⟩ := by
    have := worldBox_finModel a1 a2 a3 b1 b2 b3 1 0 0 0 h1 h2 h3 (by norm_num)
    simpa using this
  have hne : (Box3.mk ⟨.fin a1, .fin a2, .fin a3⟩ ⟨.fin b1, .fin b2, .fin b3⟩).isEmpty = false :=
    finBox_not_empty _ _ _ _ _ _ h1 h2 h3
  have hMne : max (b1-a1) (max (b2-a2) (b3-a3)) ≠ 0 := ne_of_gt hM
  simp only [centerAndScaleModel, hw0, Box3.getCenter, Box3.getSize, hne, Bool.false_eq_true,
    if_false, JsNum.sub_fin, JsNum.add_fin, JsNum.mul_fin, JsNum.max_fin, JsNum.neg_fin]
  rw [JsNum.div_fin _ _ hMne]
  simp

/-- Multiplying the negation of any JS number by `+Infinity` never yields a
finite value. -/
theorem mul_neg_posInf_not_fin (c : JsNum) : (JsNum.mul (JsNum.neg c) .posInf).isFin = false := by
  cases c <;> simp only [JsNum.neg, JsNum.mul, JsNum.isFin] <;> split_ifs <;> rfl

/-! ## Claims C1 - C4: Geometry Normalizer and camera factory -/

/-- C1 (counterexample): on a single-point model (zero extent on all three
axes) `centerAndScaleModel` does not fail; it writes the non-finite scale
`+Infinity` and the non-finite position `-Infinity` into the model's
transform, contradicting the claim that a DegenerateGeometry error is raised
and no non-finite value is ever written. -/
theorem C1_claim_counterexample :
    (centerAndScaleModel ⟨⟨⟨.fin 1, .fin 2, .fin 3⟩, ⟨.fin 1, .fin 2, .fin 3⟩⟩,
        ⟨.fin 1, .fin 1, .fin 1⟩, ⟨.fin 0, .fin 0, .fin 0⟩⟩).scale.x = .posInf ∧
    (centerAndScaleModel ⟨⟨⟨.fin 1, .fin 2, .fin 3⟩, ⟨.fin 1, .fin 2, .fin 3⟩⟩,
        ⟨.fin 1, .fin 1, .fin 1⟩, ⟨.fin 0, .fin 0, .fin 0⟩⟩).position.y = .negInf := by
  constructor <;>
    norm_num [centerAndScaleModel, worldBox, axisLo, axisHi, Box3.getCenter, Box3.getSize,
      Box3.isEmpty, JsNum.div, JsNum.mul, JsNum.add, JsNum.neg, JsNum.sub, JsNum.jsMin,
      JsNum.jsMax, JsNum.lt]

/-- C1 (amended): for every model whose measured bounding volume has zero
extent on all three axes (`maxDim = 0`; a single point or an empty model),
`centerAndScaleModel` performs no degeneracy check and completes normally,
writing the non-finite scale `+Infinity` and non-finite (infinite or NaN)
position components into the model's transform. -/
theorem C1_degenerate_writes_nonfinite_transform (m : Model)
    (h : boxMaxDim (worldBox m) = .fin 0) :
    (centerAndScaleModel m).scale = ⟨.posInf, .posInf, .posInf⟩ ∧
    ((centerAndScaleModel m).position.x).isFin = false ∧
    ((centerAndScaleModel m).position.y).isFin = false ∧
    ((centerAndScaleModel m).position.z).isFin = false := by
  have e : JsNum.jsMax (worldBox m).getSize.x
      (JsNum.jsMax (worldBox m).getSize.y (worldBox m).getSize.z) = .fin 0 := h
  have d : JsNum.div (.fin 3) (.fin 0) = .posInf := by norm_num [JsNum.div]
  simp only [centerAndScaleModel, e, d]
  exact ⟨trivial, mul_neg_posInf_not_fin _, mul_neg_posInf_not_fin _, mul_neg_posInf_not_fin _⟩

/-- C1 (witness): the amended theorem applied to the concrete single-point
model at `(1, 2, 3)`. -/
theorem C1_degenerate_writes_nonfinite_transform_witness :
    boxMaxDim (worldBox ⟨⟨⟨.fin 1, .fin 2, .fin 3⟩, ⟨.fin 1, .fin 2, .fin 3⟩⟩,
        ⟨.fin 1, .fin 1, .fin 1⟩, ⟨.fin 0, .fin 0, .fin 0⟩⟩) = .fin 0 ∧
    ((centerAndScaleModel ⟨⟨⟨.fin 1, .fin 2, .fin 3⟩, ⟨.fin 1, .fin 2, .fin 3⟩⟩,
        ⟨.fin 1, .fin 1, .fin 1⟩, ⟨.fin 0, .fin 0, .fin 0⟩⟩).scale = ⟨.posInf, .posInf, .posInf⟩ ∧
      ((centerAndScaleModel ⟨⟨⟨.fin 1, .fin 2, .fin 3⟩, ⟨.fin 1, .fin 2, .fin 3⟩⟩,
        ⟨.fin 1, .fin 1, .fin 1⟩, ⟨.fin 0, .fin 0, .fin 0⟩⟩).position.x).isFin = false ∧
      ((centerAndScaleModel ⟨⟨⟨.fin 1, .fin 2, .fin 3⟩, ⟨.fin 1, .fin 2, .fin 3⟩⟩,
        ⟨.fin 1, .fin 1, .fin 1⟩, ⟨.fin 0, .fin 0, .fin 0⟩⟩).position.y).isFin = false ∧
      ((centerAndScaleModel ⟨⟨⟨.fin 1, .fin 2, .fin 3⟩, ⟨.fin 1, .fin 2, .fin 3⟩⟩,
        ⟨.fin 1, .fin 1, .fin 1⟩, ⟨.fin 0, .fin 0, .fin 0⟩⟩).position.z).isFin = false) :=
  ⟨by norm_num [boxMaxDim, worldBox, axisLo, axisHi, Box3.getSize, Box3.isEmpty,
      JsNum.mul, JsNum.add, JsNum.neg, JsNum.sub, JsNum.jsMin, JsNum.jsMax, JsNum.lt],
   C1_degenerate_writes_nonfinite_transform _
     (by norm_num [boxMaxDim, worldBox, axisLo, axisHi, Box3.getSize, Box3.isEmpty,
        JsNum.mul, JsNum.add, JsNum.neg, JsNum.sub, JsNum.jsMin, JsNum.jsMax, JsNum.lt])⟩

/-- C2 (counterexample): a model whose root transform is not the identity
(uniform scale 2, content box the unit cube) refutes the claim as stated for
"every model": after `centerAndScaleModel` the measured bounding volume has
maximum extent 3/2 (not 3) and horizontal center -3/4 (not 0), because the
function measures the box in world space (including the current scale) but
then overwrites the scale with an absolute value. -/
theorem C2_claim_counterexample :
    boxMaxDim (worldBox (centerAndScaleModel ⟨⟨⟨.fin 0, .fin 0, .fin 0⟩, ⟨.fin 1, .fin 1, .fin 1⟩⟩,
        ⟨.fin 2, .fin 2, .fin 2⟩, ⟨.fin 0, .fin 0, .fin 0⟩⟩)) = .fin (3/2) ∧
    boxMaxDim (worldBox (centerAndScaleModel ⟨⟨⟨.fin 0, .fin 0, .fin 0⟩, ⟨.fin 1, .fin 1, .fin 1⟩⟩,
        ⟨.fin 2, .fin 2, .fin 2⟩, ⟨.fin 0, .fin 0, .fin 0⟩⟩)) ≠ .fin 3 ∧
    (worldBox (centerAndScaleModel ⟨⟨⟨.fin 0, .fin 0, .fin 0⟩, ⟨.fin 1, .fin 1, .fin 1⟩⟩,
        ⟨.fin 2, .fin 2, .fin 2⟩, ⟨.fin 0, .fin 0, .fin 0⟩⟩)).getCenter.x = .fin (-3/4) := by
  refine ⟨?_, ?_, ?_⟩ <;>
    norm_num [boxMaxDim, centerAndScaleModel, worldBox, axisLo, axisHi, Box3.getCenter,
      Box3.getSize, Box3.isEmpty, JsNum.div, JsNum.mul, JsNum.add, JsNum.neg, JsNum.sub,
      JsNum.jsMin, JsNum.jsMax, JsNum.lt]

/-- C2 (amended): for every model whose bounding volume is non-degenerate and
whose root transform is the identity — as holds for a freshly loaded model —
after `centerAndScaleModel` runs once the measured bounding volume has
maximum extent exactly 3, minimum y-coordinate exactly 0, and horizontal
center exactly at the origin on both the x and z axes. -/
theorem C2_normalizes_identity_model (a1 a2 a3 b1 b2 b3 : ℚ)
    (h1 : a1 ≤ b1) (h2 : a2 ≤ b2) (h3 : a3 ≤ b3)
    (hM : 0 < max (b1-a1) (max (b2-a2) (b3-a3))) :
    boxMaxDim (worldBox (centerAndScaleModel ⟨⟨⟨.fin a1, .fin a2, .fin a3⟩, ⟨.fin b1, .fin b2, .fin b3⟩⟩,
        ⟨.fin 1, .fin 1, .fin 1⟩, ⟨.fin 0, .fin 0, .fin 0⟩⟩)) = .fin 3 ∧
    (worldBox (centerAndScaleModel ⟨⟨⟨.fin a1, .fin a2, .fin a3⟩, ⟨.fin b1, .fin b2, .fin b3⟩⟩,
        ⟨.fin 1, .fin 1, .fin 1⟩, ⟨.fin 0, .fin 0, .fin 0⟩⟩)).min.y = .fin 0 ∧
    (worldBox (centerAndScaleModel ⟨⟨⟨.fin a1, .fin a2, .fin a3⟩, ⟨.fin b1, .fin b2, .fin b3⟩⟩,
        ⟨.fin 1, .fin 1, .fin 1⟩, ⟨.fin 0, .fin 0, .fin 0⟩⟩)).getCenter.x = .fin 0 ∧
    (worldBox (centerAndScaleModel ⟨⟨⟨.fin a1, .fin a2, .fin a3⟩, ⟨.fin b1, .fin b2, .fin b3⟩⟩,
        ⟨.fin 1, .fin 1, .fin 1⟩, ⟨.fin 0, .fin 0, .fin 0⟩⟩)).getCenter.z = .fin 0 := by
  have hMne : max (b1-a1) (max (b2-a2) (b3-a3)) ≠ 0 := ne_of_gt hM
  have hs : (0:ℚ) < 3 / max (b1-a1) (max (b2-a2) (b3-a3)) := by positivity
  rw [centerAndScale_run a1 a2 a3 b1 b2 b3 h1 h2 h3 hM,
      worldBox_finModel _ _ _ _ _ _ _ _ _ _ h1 h2 h3 hs.le]
  have o1 : (3 / max (b1-a1) (max (b2-a2) (b3-a3)))*a1 + (-((a1+b1)*(1/2)) * (3 / max (b1-a1) (max (b2-a2) (b3-a3)))) ≤
            (3 / max (b1-a1) (max (b2-a2) (b3-a3)))*b1 + (-((a1+b1)*(1/2)) * (3 / max (b1-a1) (max (b2-a2) (b3-a3)))) := by
    have := mul_le_mul_of_nonneg_left h1 hs.le; linarith
  have o2 : (3 / max (b1-a1) (max (b2-a2) (b3-a3)))*a2 + (-a2 * (3 / max (b1-a1) (max (b2-a2) (b3-a3)))) ≤
            (3 / max (b1-a1) (max (b2-a2) (b3-a3)))*b2 + (-a2 * (3 / max (b1-a1) (max (b2-a2) (b3-a3)))) := by
    have := mul_le_mul_of_nonneg_left h2 hs.le; linarith
  have o3 : (3 / max (b1-a1) (max (b2-a2) (b3-a3)))*a3 + (-((a3+b3)*(1/2)) * (3 / max (b1-a1) (max (b2-a2) (b3-a3)))) ≤
            (3 / max (b1-a1) (max (b2-a2) (b3-a3)))*b3 + (-((a3+b3)*(1/2)) * (3 / max (b1-a1) (max (b2-a2) (b3-a3)))) := by
    have := mul_le_mul_of_nonneg_left h3 hs.le; linarith
  have hne2 := finBox_not_empty _ _ _ _ _ _ o1 o2 o3
  refine ⟨?_, ?_, ?_, ?_⟩
  · simp only [boxMaxDim, Box3.getSize, hne2, Bool.false_eq_true, if_false,
      JsNum.sub_fin, JsNum.max_fin]
    congr 1
    have g1 : ((3 / max (b1-a1) (max (b2-a2) (b3-a3)))*b1 + (-((a1+b1)*(1/2)) * (3 / max (b1-a1) (max (b2-a2) (b3-a3))))) -
              ((3 / max (b1-a1) (max (b2-a2) (b3-a3)))*a1 + (-((a1+b1)*(1/2)) * (3 / max (b1-a1) (max (b2-a2) (b3-a3))))) =
              (3 / max (b1-a1) (max (b2-a2) (b3-a3))) * (b1-a1) := by ring
    have g2 : ((3 / max (b1-a1) (max (b2-a2) (b3-a3)))*b2 + (-a2 * (3 / max (b1-a1) (max (b2-a2) (b3-a3))))) -
              ((3 / max (b1-a1) (max (b2-a2) (b3-a3)))*a2 + (-a2 * (3 / max (b1-a1) (max (b2-a2) (b3-a3))))) =
              (3 / max (b1-a1) (max (b2-a2) (b3-a3))) * (b2-a2) := by ring
    have g3 : ((3 / max (b1-a1) (max (b2-a2) (b3-a3)))*b3 + (-((a3+b3)*(1/2)) * (3 / max (b1-a1) (max (b2-a2) (b3-a3))))) -
              ((3 / max (b1-a1) (max (b2-a2) (b3-a3)))*a3 + (-((a3+b3)*(1/2)) * (3 / max (b1-a1) (max (b2-a2) (b3-a3))))) =
              (3 / max (b1-a1) (max (b2-a2) (b3-a3))) * (b3-a3) := by ring
    rw [g1, g2, g3, ← mul_max_of_nonneg _ _ hs.le, ← mul_max_of_nonneg _ _ hs.le]
    exact div_mul_cancel₀ 3 hMne
  · ring_nf
  · simp only [Box3.getCenter, hne2, Bool.false_eq_true, if_false, JsNum.add_fin, JsNum.mul_fin]
    congr 1; ring
  · simp only [Box3.getCenter, hne2, Bool.false_eq_true, if_false, JsNum.add_fin, JsNum.mul_fin]
    congr 1; ring

/-- C2 (witness): the amended theorem applied to the model with content box
`[1,2] x [1,2] x [1,2]` and identity root transform. -/
theorem C2_normalizes_identity_model_witness :
    ((1:ℚ) ≤ 2 ∧ (1:ℚ) ≤ 2 ∧ (1:ℚ) ≤ 2 ∧ (0:ℚ) < max (2-1) (max (2-1) (2-1))) ∧
    (boxMaxDim (worldBox (centerAndScaleModel ⟨⟨⟨.fin 1, .fin 1, .fin 1⟩, ⟨.fin 2, .fin 2, .fin 2⟩⟩,
        ⟨.fin 1, .fin 1, .fin 1⟩, ⟨.fin 0, .fin 0, .fin 0⟩⟩)) = .fin 3 ∧
      (worldBox (centerAndScaleModel ⟨⟨⟨.fin 1, .fin 1, .fin 1⟩, ⟨.fin 2, .fin 2, .fin 2⟩⟩,
        ⟨.fin 1, .fin 1, .fin 1⟩, ⟨.fin 0, .fin 0, .fin 0⟩⟩)).min.y = .fin 0 ∧
      (worldBox (centerAndScaleModel ⟨⟨⟨.fin 1, .fin 1, .fin 1⟩, ⟨.fin 2, .fin 2, .fin 2⟩⟩,
        ⟨.fin 1, .fin 1, .fin 1⟩, ⟨.fin 0, .fin 0, .fin 0⟩⟩)).getCenter.x = .fin 0 ∧
      (worldBox (centerAndScaleModel ⟨⟨⟨.fin 1, .fin 1, .fin 1⟩, ⟨.fin 2, .fin 2, .fin 2⟩⟩,
        ⟨.fin 1, .fin 1, .fin 1⟩, ⟨.fin 0, .fin 0, .fin 0⟩⟩)).getCenter.z = .fin 0) :=
  ⟨⟨by norm_num, by norm_num, by norm_num, by norm_num⟩,
   C2_normalizes_identity_model 1 1 1 2 2 2 (by norm_num) (by norm_num) (by norm_num) (by norm_num)⟩

/-- C3 (code bug): `centerAndScaleModel` is not idempotent.  On the model
with content box `[1,2]^3` the first run sets scale 3 and position
`(-9/2, -3, -9/2)`; the second run, measuring the already-normalized world
box (max extent 3), computes `scale = 3/3 = 1` and position `(0,0,0)` and
thereby resets the model to its un-normalized state, contradicting both the
spec's idempotence property and the function's own doc comment. -/
theorem C3_second_run_resets_transform :
    centerAndScaleModel ⟨⟨⟨.fin 1, .fin 1, .fin 1⟩, ⟨.fin 2, .fin 2, .fin 2⟩⟩,
        ⟨.fin 1, .fin 1, .fin 1⟩, ⟨.fin 0, .fin 0, .fin 0⟩⟩ =
      ⟨⟨⟨.fin 1, .fin 1, .fin 1⟩, ⟨.fin 2, .fin 2, .fin 2⟩⟩,
       ⟨.fin 3, .fin 3, .fin 3⟩, ⟨.fin (-9/2), .fin (-3), .fin (-9/2)⟩⟩ ∧
    centerAndScaleModel (centerAndScaleModel ⟨⟨⟨.fin 1, .fin 1, .fin 1⟩, ⟨.fin 2, .fin 2, .fin 2⟩⟩,
        ⟨.fin 1, .fin 1, .fin 1⟩, ⟨.fin 0, .fin 0, .fin 0⟩⟩) =
      ⟨⟨⟨.fin 1, .fin 1, .fin 1⟩, ⟨.fin 2, .fin 2, .fin 2⟩⟩,
       ⟨.fin 1, .fin 1, .fin 1⟩, ⟨.fin 0, .fin 0, .fin 0⟩⟩ := by
  constructor <;>
    norm_num [centerAndScaleModel, worldBox, axisLo, axisHi, Box3.getCenter, Box3.getSize,
      Box3.isEmpty, JsNum.div, JsNum.mul, JsNum.add, JsNum.neg, JsNum.sub, JsNum.jsMin,
      JsNum.jsMax, JsNum.lt]

/-- C4 (counterexample): `initCamera` on a surface of width 800 and height 0
does not fail; it returns a camera whose aspect ratio is `+Infinity`,
contradicting the claim that a ConfigurationError is raised instead. -/
theorem C4_claim_counterexample :
    (initCamera 800 0).aspect = .posInf := by
  norm_num [initCamera, JsNum.div]

/-- C4 (amended): `initCamera` performs no validation of the surface size;
for a zero-height surface of positive width the constructed camera's aspect
ratio is `+Infinity` (and `NaN` when the width is 0 as well), rather than a
ConfigurationError being raised. -/
theorem C4_initCamera_zero_height_nonfinite_aspect (w : ℚ) (hw : 0 < w) :
    (initCamera w 0).aspect = .posInf ∧ (initCamera 0 0).aspect = .nan := by
  constructor
  · simp [initCamera, JsNum.div, ne_of_gt hw, hw]
  · simp [initCamera, JsNum.div]

/-- C4 (witness): the amended theorem applied at width 800. -/
theorem C4_initCamera_zero_height_nonfinite_aspect_witness :
    (0:ℚ) < 800 ∧ ((initCamera 800 0).aspect = .posInf ∧ (initCamera 0 0).aspect = .nan) :=
  ⟨by norm_num, C4_initCamera_zero_height_nonfinite_aspect 800 (by norm_num)⟩

/-! ## Claims C5 - C7: failure isolation, resource lifecycle, load races -/

/-- C5: for every input on which the environment decode fails,
`setupEnvironment` propagates the failure to its caller and leaves the
scene's environment, background and backgroundBlurriness exactly as they
were (no partial installation). -/
theorem C5_setupEnvironment_error_preserves_scene (file : FileInput) (scene : SceneState)
    (blurriness : ℚ) (useSkybox : Bool) (e : Err) (u : UrlState) :
    (setupEnvironment file scene blurriness useSkybox (.error e) u).1 = .error e ∧
    (setupEnvironment file scene blurriness useSkybox (.error e) u).2.1 = scene := by
  cases file <;> simp [setupEnvironment]

/-- C6: on every decode outcome, `loadGLTFModel` creates and revokes exactly
one object URL, and `setupEnvironment` creates and revokes exactly one object
URL for a `File` input and none for a URL-string input. -/
theorem C6_object_url_released_exactly_once (f : ℕ) (r : Except Err ℕ)
    (fh : ℕ) (s : ℕ) (outcome : Except Err Texture) (scene : SceneState)
    (blurriness : ℚ) (useSkybox : Bool) (u : UrlState) :
    (loadGLTFModel f r u).2 = ⟨u.created + 1, u.revoked + 1⟩ ∧
    (setupEnvironment (.file fh) scene blurriness useSkybox outcome u).2.2 =
      ⟨u.created + 1, u.revoked + 1⟩ ∧
    (setupEnvironment (.url s) scene blurriness useSkybox outcome u).2.2 = u := by
  refine ⟨?_, ?_, ?_⟩ <;> cases r <;> cases outcome <;>
    simp [loadGLTFModel, setupEnvironment, createObjectURL, revokeObjectURL]

/-- C7 (counterexample): environment load A (a file decoding to texture 0)
is initiated first and load B (a URL decoding to texture 1) before A's decode
resolves; when B's decode settles before A's, A's continuation runs last and
installs the stale texture 0 over B's texture 1 — the later-initiated load
does not win, refuting the claim. -/
theorem C7_claim_counterexample :
    (runEnvLoads [⟨.url 1, .ok ⟨1, .uv⟩, 0, true⟩, ⟨.file 7, .ok ⟨0, .uv⟩, 0, true⟩]
        initScene ⟨0, 0⟩).1.environment = some ⟨0, .equirect⟩ ∧
    (runEnvLoads [⟨.url 1, .ok ⟨1, .uv⟩, 0, true⟩, ⟨.file 7, .ok ⟨0, .uv⟩, 0, true⟩]
        initScene ⟨0, 0⟩).1.environment ≠ some ⟨1, .equirect⟩ := by
  constructor <;>
    simp [runEnvLoads, settleEnvLoad, setupEnvironment, setSceneEnvironment,
      createObjectURL, revokeObjectURL, initScene]

/-- C7 (amended): among two overlapping environment loads that both decode
successfully, the load whose decode settles last is the one whose texture is
the scene's active environment once both settle (B wins only when A settles
first; there is no sequencing token discarding stale results), and every
temporary object URL created by either load is released. -/
theorem C7_last_settled_env_wins (i1 i2 : FileInput) (t1 t2 : Texture)
    (b1 b2 : ℚ) (k1 k2 : Bool) (scene : SceneState) (u : UrlState) :
    (runEnvLoads [⟨i1, .ok t1, b1, k1⟩, ⟨i2, .ok t2, b2, k2⟩] scene u).1.environment
      = some { t2 with mapping := .equirect } ∧
    (runEnvLoads [⟨i1, .ok t1, b1, k1⟩, ⟨i2, .ok t2, b2, k2⟩] scene u).2
      = ⟨u.created + fileCount i1 + fileCount i2,
         u.revoked + fileCount i1 + fileCount i2⟩ := by
  cases i1 <;> cases i2 <;>
    simp [runEnvLoads, settleEnvLoad, setupEnvironment, setSceneEnvironment,
      createObjectURL, revokeObjectURL, fileCount]


/-! ## Helper lemmas for the Material Collector and Shadow Configurator -/

mutual
/-- The material-collecting traversal returns every visited node unchanged. -/
theorem collectMatsM_fst (n : Node) (acc : List (Option ℕ)) : (collectMatsM n acc).1 = n := by
  cases n <;> simp [collectMatsM, collectMatsListM_fst]

/-- List version of `collectMatsM_fst`. -/
theorem collectMatsListM_fst (ns : NodeList) (acc : List (Option ℕ)) :
    (collectMatsListM ns acc).1 = ns := by
  cases ns with
  | nil => rfl
  | cons n ns => simp [collectMatsListM, collectMatsM_fst, collectMatsListM_fst]
end

mutual
/-- The accumulated set equals folding `insertMat` over the per-node
contributions flattened in preorder. -/
theorem collectMatsM_snd (n : Node) (acc : List (Option ℕ)) :
    (collectMatsM n acc).2 = ((preorder n).flatMap nodeMats).foldl insertMat acc := by
  cases n <;> simp [collectMatsM, preorder, nodeMats, List.foldl_append, collectMatsListM_snd]

/-- List version of `collectMatsM_snd`. -/
theorem collectMatsListM_snd (ns : NodeList) (acc : List (Option ℕ)) :
    (collectMatsListM ns acc).2 = ((preorderList ns).flatMap nodeMats).foldl insertMat acc := by
  cases ns with
  | nil => rfl
  | cons n ns => simp [collectMatsListM, preorderList, List.foldl_append,
      collectMatsM_snd, collectMatsListM_snd]
end

/-- `insertMat` preserves the no-duplicates invariant of the set's list. -/
theorem insertMat_nodup (acc : List (Option ℕ)) (m : Option ℕ) (h : acc.Nodup) :
    (insertMat acc m).Nodup := by
  unfold insertMat
  split
  · exact h
  · next hm => simpa [List.nodup_append, h] using hm

/-- Folding `insertMat` preserves the no-duplicates invariant. -/
theorem foldl_insertMat_nodup (l acc : List (Option ℕ)) (h : acc.Nodup) :
    (l.foldl insertMat acc).Nodup := by
  induction l generalizing acc with
  | nil => exact h
  | cons x xs ih => exact ih _ (insertMat_nodup _ _ h)

/-- `insertMat` adds exactly the element to the set of entries. -/
theorem insertMat_toFinset (acc : List (Option ℕ)) (m : Option ℕ) :
    (insertMat acc m).toFinset = insert m acc.toFinset := by
  unfold insertMat
  split
  · next hm => simp [Finset.insert_eq_self.2 (List.mem_toFinset.2 hm)]
  · simp [List.toFinset_append]
    exact (Finset.union_comm _ _)

/-- Folding `insertMat` accumulates exactly the union of the entries. -/
theorem foldl_insertMat_toFinset (l acc : List (Option ℕ)) :
    (l.foldl insertMat acc).toFinset = acc.toFinset ∪ l.toFinset := by
  induction l generalizing acc with
  | nil => simp
  | cons x xs ih =>
      simp only [List.foldl_cons, ih, insertMat_toFinset, List.toFinset_cons]
      ext y
      simp [or_comm, or_assoc, or_left_comm]

/-- Folding `insertMat` from an accumulator appends, in first-encounter
order, those deduplicated elements not already present. -/
theorem foldl_insertMat_keepFirst (l acc : List (Option ℕ)) :
    l.foldl insertMat acc = acc ++ ((keepFirst l).filter (fun y => y ∉ acc)) := by
  induction l generalizing acc with
  | nil => simp [keepFirst]
  | cons x xs ih =>
      simp only [List.foldl_cons, keepFirst, ih, List.filter_cons]
      by_cases hx : x ∈ acc
      · have e1 : insertMat acc x = acc := by simp [insertMat, hx]
        rw [e1]
        simp only [hx, not_true_eq_false, decide_False, Bool.false_eq_true, if_false]
        congr 1
        rw [List.filter_filter]
        apply List.filter_congr
        intro y hy
        by_cases hyx : y = x
        · subst hyx; simp [hx]
        · simp [hyx]
      · have e1 : insertMat acc x = acc ++ [x] := by simp [insertMat, hx]
        rw [e1]
        simp only [hx, not_false_eq_true, decide_True, if_pos, List.append_assoc,
          List.singleton_append]
        congr 2
        rw [List.filter_filter]
        apply List.filter_congr
        intro y hy
        by_cases hyx : y = x
        · subst hyx; simp
        · simp [hyx, List.mem_append, hx]

mutual
/-- Every mesh node has both shadow flags set after `enableModelShadows`. -/
theorem enableModelShadows_all (n : Node) : allMeshShadows (enableModelShadows n) = true := by
  cases n <;> simp [enableModelShadows, allMeshShadows, enableShadowsList_all]

/-- List version of `enableModelShadows_all`. -/
theorem enableShadowsList_all (ns : NodeList) :
    allMeshShadowsList (enableShadowsList ns) = true := by
  cases ns with
  | nil => rfl
  | cons n ns => simp [enableShadowsList, allMeshShadowsList, enableModelShadows_all,
      enableShadowsList_all]
end

mutual
/-- `enableModelShadows` is idempotent on every node. -/
theorem enableModelShadows_idem (n : Node) :
    enableModelShadows (enableModelShadows n) = enableModelShadows n := by
  cases n <;> simp [enableModelShadows, enableShadowsList_idem]

/-- List version of `enableModelShadows_idem`. -/
theorem enableShadowsList_idem (ns : NodeList) :
    enableShadowsList (enableShadowsList ns) = enableShadowsList ns := by
  cases ns with
  | nil => rfl
  | cons n ns => simp [enableShadowsList, enableModelShadows_idem, enableShadowsList_idem]
end

mutual
/-- `allMeshShadows` means exactly that every node of the preorder traversal
has its mesh shadow flags on. -/
theorem allMeshShadows_iff (n : Node) :
    allMeshShadows n = true ↔ ∀ k ∈ preorder n, meshFlagsOn k = true := by
  cases n with
  | group cs =>
      simp [allMeshShadows, preorder, meshFlagsOn, allMeshShadowsList_iff cs]
  | mesh m c r cs =>
      simp [allMeshShadows, preorder, meshFlagsOn, allMeshShadowsList_iff cs, and_assoc]

/-- List version of `allMeshShadows_iff`. -/
theorem allMeshShadowsList_iff (ns : NodeList) :
    allMeshShadowsList ns = true ↔ ∀ k ∈ preorderList ns, meshFlagsOn k = true := by
  cases ns with
  | nil => simp [allMeshShadowsList, preorderList]
  | cons n ns =>
      simp [allMeshShadowsList, preorderList, allMeshShadows_iff n, allMeshShadowsList_iff ns]
      constructor
      · rintro ⟨h1, h2⟩ k (hk | hk)
        · exact h1 k hk
        · exact h2 k hk
      · intro h
        exact ⟨fun k hk => h k (Or.inl hk), fun k hk => h k (Or.inr hk)⟩
end

/-! ## Claims C8 - C10: Material Collector and Shadow Configurator -/

/-- C8: for every model, `getUniqueModelMaterials` returns a sequence with no
duplicate material identities, whose length is the number of distinct
material identities referenced across all mesh nodes, ordered by first
encounter in the deterministic depth-first preorder traversal (parent before
children, children in declaration order), and the traversal leaves the model
unchanged. -/
theorem C8_unique_materials_first_encounter (root : Node) :
    (getUniqueModelMaterials root).Nodup ∧
    (getUniqueModelMaterials root).length = ((preorder root).flatMap nodeMats).toFinset.card ∧
    getUniqueModelMaterials root = keepFirst ((preorder root).flatMap nodeMats) ∧
    (collectMatsM root []).1 = root := by
  have hsnd := collectMatsM_snd root []
  have hnd : (getUniqueModelMaterials root).Nodup := by
    unfold getUniqueModelMaterials
    rw [hsnd]
    exact foldl_insertMat_nodup _ _ (by simp)
  refine ⟨hnd, ?_, ?_, collectMatsM_fst root []⟩
  · have ht : (getUniqueModelMaterials root).toFinset =
        ((preorder root).flatMap nodeMats).toFinset := by
      unfold getUniqueModelMaterials
      rw [hsnd, foldl_insertMat_toFinset]
      simp
    rw [← List.toFinset_card_of_nodup hnd, ht]
  · unfold getUniqueModelMaterials
    rw [hsnd, foldl_insertMat_keepFirst]
    simp

/-- C9: for every model, after `enableModelShadows` every mesh node in the
hierarchy has both its shadow-casting and shadow-receiving flags set
(`allMeshShadows`, which by `allMeshShadows_iff` is the statement about every
traversed node), and running it a second time leaves the model in exactly the
state the first run produced. -/
theorem C9_enableModelShadows_flags_idempotent (n : Node) :
    allMeshShadows (enableModelShadows n) = true ∧
    enableModelShadows (enableModelShadows n) = enableModelShadows n :=
  ⟨enableModelShadows_all n, enableModelShadows_idem n⟩

/-- C10 (counterexample): a mesh whose material slot is an array containing a
`null` entry refutes the claim that the returned array never contains a null
entry — the guard checks only `child.material` itself, and the array elements
are added unchecked, so the result is exactly `[null]`. -/
theorem C10_claim_counterexample :
    getUniqueModelMaterials (.mesh (.multi [none]) false false .nil) = [none] ∧
    none ∈ getUniqueModelMaterials (.mesh (.multi [none]) false false .nil) := by
  constructor <;> decide

/-- C10 (amended): a mesh node whose material assignment is `null`/`undefined`
is skipped — replacing it by a plain group with the same children leaves the
collected sequence unchanged — and the returned array contains no null entry
provided no multi-material array in the model itself contains a null element
(such elements are added unchecked). -/
theorem C10_null_assignment_skipped (c r : Bool) (cs ns : NodeList) (root : Node)
    (h : ∀ x ∈ (preorder root).flatMap nodeMats, x ≠ none) :
    getUniqueModelMaterials (.group (.cons (.mesh .jsNull c r cs) ns)) =
      getUniqueModelMaterials (.group (.cons (.group cs) ns)) ∧
    none ∉ getUniqueModelMaterials root := by
  constructor
  · unfold getUniqueModelMaterials
    rw [collectMatsM_snd, collectMatsM_snd]
    simp [preorder, preorderList, nodeMats, matListOf]
  · intro hmem
    have ht : (getUniqueModelMaterials root).toFinset =
        ((preorder root).flatMap nodeMats).toFinset := by
      unfold getUniqueModelMaterials
      rw [collectMatsM_snd, foldl_insertMat_toFinset]
      simp
    have : (none : Option ℕ) ∈ (preorder root).flatMap nodeMats := by
      rw [← List.mem_toFinset, ← ht, List.mem_toFinset]
      exact hmem
    exact h none this rfl

/-- C10 (witness): the amended theorem applied to a one-mesh model carrying
material 5 and to the empty-children null-mesh replacement. -/
theorem C10_null_assignment_skipped_witness :
    (∀ x ∈ (preorder (.mesh (.single 5) false false .nil)).flatMap nodeMats, x ≠ none) ∧
    (getUniqueModelMaterials (.group (.cons (.mesh .jsNull false false .nil) .nil)) =
       getUniqueModelMaterials (.group (.cons (.group .nil) .nil)) ∧
     none ∉ getUniqueModelMaterials (.mesh (.single 5) false false .nil)) :=
  ⟨by decide, C10_null_assignment_skipped false false .nil .nil _ (by decide)⟩
